import Mathlib

/-!
Verification of the mcp-chrome Bridge Gateway constants and tooling.

Embeds, from the repository source:
- `src/app/native-server/src/constant/index.ts`: the `NATIVE_MESSAGE_TYPE`
  enumeration, `NATIVE_SERVER_PORT`, `TIMEOUTS`, `SERVER_CONFIG`,
  `HTTP_STATUS` and `ERROR_MESSAGES`;
- the `run_host` native-host wrapper shell script (host-binding resolution
  and config-file sanitization);
- the `configure-host.sh` tooling (the connection URL it prints).

The Gateway's request pipeline and Request Correlator are not present under
the source tree (only their constants are); where a claim needs them they
are modelled from the specification, and each such definition says so in
its doc comment.
-/

/-- The `NATIVE_MESSAGE_TYPE` enum of `constant/index.ts` lines 1-9:
seven members START, STARTED, STOP, STOPPED, PING, PONG, ERROR. -/
inductive NATIVE_MESSAGE_TYPE where
  | START
  | STARTED
  | STOP
  | STOPPED
  | PING
  | PONG
  | ERROR
deriving DecidableEq, Repr

/-- The string value of each `NATIVE_MESSAGE_TYPE` member, exactly as in
`constant/index.ts` lines 2-8. -/
def NATIVE_MESSAGE_TYPE.val : NATIVE_MESSAGE_TYPE → String
  | .START => "start"
  | .STARTED => "started"
  | .STOP => "stop"
  | .STOPPED => "stopped"
  | .PING => "ping"
  | .PONG => "pong"
  | .ERROR => "error"

/-- The members of the enumeration, in source order. -/
def NATIVE_MESSAGE_TYPE.all : List NATIVE_MESSAGE_TYPE :=
  [.START, .STARTED, .STOP, .STOPPED, .PING, .PONG, .ERROR]

/-- `constant/index.ts` line 11: `NATIVE_SERVER_PORT = 56889`. -/
def NATIVE_SERVER_PORT : Nat := 56889

/-- `constant/index.ts` line 15. -/
def TIMEOUTS.DEFAULT_REQUEST_TIMEOUT : Nat := 15000

/-- `constant/index.ts` line 16. -/
def TIMEOUTS.EXTENSION_REQUEST_TIMEOUT : Nat := 20000

/-- `constant/index.ts` line 17. -/
def TIMEOUTS.PROCESS_DATA_TIMEOUT : Nat := 20000

/-- The three timeout constants of the `TIMEOUTS` object, in source order. -/
def TIMEOUTS.values : List Nat :=
  [TIMEOUTS.DEFAULT_REQUEST_TIMEOUT,
   TIMEOUTS.EXTENSION_REQUEST_TIMEOUT,
   TIMEOUTS.PROCESS_DATA_TIMEOUT]

/-- `constant/index.ts` line 25: `HOST: process.env.MCP_CHROME_HOST || '0.0.0.0'`.
`none` models an unset environment variable; JavaScript `||` also falls back
to the default when the variable is set to the empty string. -/
def SERVER_CONFIG.HOST (env : Option String) : String :=
  match env with
  | some h => if h = "" then "0.0.0.0" else h
  | none => "0.0.0.0"

/-- `constant/index.ts` line 32. -/
def HTTP_STATUS.OK : Nat := 200

/-- `constant/index.ts` line 33. -/
def HTTP_STATUS.NO_CONTENT : Nat := 204

/-- `constant/index.ts` line 34. -/
def HTTP_STATUS.BAD_REQUEST : Nat := 400

/-- `constant/index.ts` line 35. -/
def HTTP_STATUS.INTERNAL_SERVER_ERROR : Nat := 500

/-- `constant/index.ts` line 36. -/
def HTTP_STATUS.GATEWAY_TIMEOUT : Nat := 504

/-- The five status codes of the `HTTP_STATUS` object, in source order. -/
def HTTP_STATUS.values : List Nat :=
  [HTTP_STATUS.OK, HTTP_STATUS.NO_CONTENT, HTTP_STATUS.BAD_REQUEST,
   HTTP_STATUS.INTERNAL_SERVER_ERROR, HTTP_STATUS.GATEWAY_TIMEOUT]

/-- `constant/index.ts` line 41. -/
def ERROR_MESSAGES.NATIVE_HOST_NOT_AVAILABLE : String :=
  "Native host connection not established."

/-- `constant/index.ts` line 42. -/
def ERROR_MESSAGES.SERVER_NOT_RUNNING : String :=
  "Server is not actively running."

/-- `constant/index.ts` line 43. -/
def ERROR_MESSAGES.REQUEST_TIMEOUT : String :=
  "Request to extension timed out."

/-- `constant/index.ts` line 44. -/
def ERROR_MESSAGES.INVALID_MCP_REQUEST : String :=
  "Invalid MCP request or session."

/-- `constant/index.ts` line 45. -/
def ERROR_MESSAGES.INVALID_SESSION_ID : String :=
  "Invalid or missing MCP session ID."

/-- `constant/index.ts` line 46. -/
def ERROR_MESSAGES.INTERNAL_SERVER_ERROR : String :=
  "Internal Server Error"

/-- `constant/index.ts` line 47. -/
def ERROR_MESSAGES.MCP_SESSION_DELETION_ERROR : String :=
  "Internal server error during MCP session deletion."

/-- `constant/index.ts` line 48. -/
def ERROR_MESSAGES.MCP_REQUEST_PROCESSING_ERROR : String :=
  "Internal server error during MCP request processing."

/-- `constant/index.ts` line 49. -/
def ERROR_MESSAGES.INVALID_SSE_SESSION : String :=
  "Invalid or missing MCP session ID for SSE."

/-- The nine messages of the `ERROR_MESSAGES` object, in source order. -/
def ERROR_MESSAGES.values : List String :=
  [ERROR_MESSAGES.NATIVE_HOST_NOT_AVAILABLE,
   ERROR_MESSAGES.SERVER_NOT_RUNNING,
   ERROR_MESSAGES.REQUEST_TIMEOUT,
   ERROR_MESSAGES.INVALID_MCP_REQUEST,
   ERROR_MESSAGES.INVALID_SESSION_ID,
   ERROR_MESSAGES.INTERNAL_SERVER_ERROR,
   ERROR_MESSAGES.MCP_SESSION_DELETION_ERROR,
   ERROR_MESSAGES.MCP_REQUEST_PROCESSING_ERROR,
   ERROR_MESSAGES.INVALID_SSE_SESSION]

/-- The connection URL printed by `configure-host.sh` (both the tailscale
and the set branches): `http://$HOST_IP:12306/mcp`. -/
def configure_host_connectUrl (hostIp : String) : String :=
  "http://" ++ hostIp ++ ":12306/mcp"

/-- Sanitization applied by the `run_host` wrapper to a host config file:
`cat FILE | tr -d '\n\r ' | head -c 50` — delete every newline, carriage
return and space character, then keep the first 50 bytes. -/
def sanitizeHostFile (s : String) : String :=
  List.asString ((s.toList.filter fun c => !(c == '\n' || c == '\r' || c == ' ')).take 50)

/-- The priority order the `run_host` wrapper's own comment (line 13)
asserts for the host-binding value. -/
def run_host_commentPriority : List String :=
  ["Config file in script directory", "User home config",
   "Environment variable", "Default"]

/-- Host resolution actually performed by the `run_host` wrapper
(lines 14-29): take the environment variable if set and nonempty;
otherwise, if the script-directory config file exists, its sanitized
content; otherwise, if the user home config file exists, its sanitized
content; if the result is still empty, export the default `0.0.0.0`.
`none` models an unset variable or a missing file. -/
def run_host_resolveHost (env scriptCfg homeCfg : Option String) : String :=
  let fromEnv := env.getD ""
  let afterFiles :=
    if fromEnv = "" then
      match scriptCfg with
      | some c => sanitizeHostFile c
      | none =>
        match homeCfg with
        | some c => sanitizeHostFile c
        | none => ""
    else fromEnv
  if afterFiles = "" then "0.0.0.0" else afterFiles

/-- Modelled from the spec: the Connection state field of the data model
(spec section 3), `one of {disconnected, connecting, connected, closing}`.
The Connection Manager code itself is not under the source tree. -/
inductive ConnectionState where
  | disconnected
  | connecting
  | connected
  | closing
deriving DecidableEq, Repr

/-- Modelled from the spec: a PendingRequest of the Request Correlator
(spec section 3): a correlation identifier and an absolute deadline.
The resolve/reject continuation is represented by the outcome the
correlator eventually emits for the identifier. -/
structure PendingRequest where
  id : Nat
  deadline : Nat
deriving DecidableEq, Repr

/-- Modelled from the spec: the outcomes a request future can take
(spec sections 4.3 and 7): resolved with a payload, TimeoutError, or
ConnectionLostError. -/
inductive RequestOutcome where
  | success (payload : String)
  | timeoutError
  | connectionLostError
deriving DecidableEq, Repr

/-- Modelled from the spec: the Request Correlator state (spec section 4.3,
code not under the source tree): a monotone identifier generator, the
pending-request table, and the Connection state it observes. -/
structure CorrelatorState where
  nextId : Nat
  pending : List PendingRequest
  conn : ConnectionState
deriving DecidableEq, Repr

/-- The initial correlator state: no identifier issued, no pending request,
Connection disconnected. -/
def CorrelatorState.init : CorrelatorState :=
  { nextId := 0, pending := [], conn := .disconnected }

/-- Modelled from the spec: `send(payload, timeoutMs)` of section 4.3.
A request is accepted only while the Connection is connected (section 3,
invariant 4); it receives the next monotone correlation identifier and a
deadline `now + timeoutMs`, and the generator advances so the identifier
is never reused while outstanding. -/
def sendRequest (s : CorrelatorState) (now timeoutMs : Nat) :
    Option (CorrelatorState × Nat) :=
  if s.conn = .connected then
    some ({ s with
            nextId := s.nextId + 1,
            pending := ⟨s.nextId, now + timeoutMs⟩ :: s.pending }, s.nextId)
  else
    none

/-- Modelled from the spec: response demultiplexing of section 4.3. A
response frame carrying identifier `i` resolves the matching
PendingRequest with success; an unknown identifier is discarded (`none`)
and never crashes the bridge. -/
def resolveResponse (s : CorrelatorState) (i : Nat) (payload : String) :
    CorrelatorState × Option RequestOutcome :=
  if (s.pending.map PendingRequest.id).contains i then
    ({ s with pending := s.pending.filter fun p => p.id ≠ i },
     some (.success payload))
  else
    (s, none)

/-- Modelled from the spec: deadline expiry of section 4.3. At time `now`
every PendingRequest whose deadline has elapsed is removed and failed
with TimeoutError; the Connection state is untouched. -/
def expireTimeouts (s : CorrelatorState) (now : Nat) :
    CorrelatorState × List (Nat × RequestOutcome) :=
  ({ s with pending := s.pending.filter fun p => now < p.deadline },
   (s.pending.filter fun p => p.deadline ≤ now).map
     fun p => (p.id, .timeoutError))

/-- Modelled from the spec: Connection loss (sections 4.3 and 4.4). In one
atomic step the Connection becomes disconnected, the pending table is
emptied, and every outstanding PendingRequest is rejected with
ConnectionLostError. -/
def onDisconnect (s : CorrelatorState) :
    CorrelatorState × List (Nat × RequestOutcome) :=
  ({ s with conn := .disconnected, pending := [] },
   s.pending.map fun p => (p.id, .connectionLostError))

/-- Modelled from the spec: a completed `connect()` of section 4.4 moves the
Connection to connected; the pending table and the identifier generator
are untouched. -/
def onConnect (s : CorrelatorState) : CorrelatorState :=
  { s with conn := .connected }

/-- Modelled from the spec: the Gateway's translation of a request outcome
into an HTTP status and body (section 4.6): 200 with the payload on
success, 504 with the fixed request-timeout message on TimeoutError, 500
with the fixed native-host-not-available message on ConnectionLostError.
The status codes and messages are the source constants. -/
def gatewayResponse : RequestOutcome → Nat × String
  | .success payload => (HTTP_STATUS.OK, payload)
  | .timeoutError => (HTTP_STATUS.GATEWAY_TIMEOUT, ERROR_MESSAGES.REQUEST_TIMEOUT)
  | .connectionLostError =>
      (HTTP_STATUS.INTERNAL_SERVER_ERROR, ERROR_MESSAGES.NATIVE_HOST_NOT_AVAILABLE)

/-- One step of the correlator: a send, a response, an expiry sweep, a
connection loss, or a reconnect. -/
inductive CorrStep : CorrelatorState → CorrelatorState → Prop where
  | send (s s1 : CorrelatorState) (now timeoutMs i : Nat)
      (h : sendRequest s now timeoutMs = some (s1, i)) : CorrStep s s1
  | resolve (s : CorrelatorState) (i : Nat) (payload : String) :
      CorrStep s (resolveResponse s i payload).1
  | expire (s : CorrelatorState) (now : Nat) :
      CorrStep s (expireTimeouts s now).1
  | disconnect (s : CorrelatorState) : CorrStep s (onDisconnect s).1
  | connect (s : CorrelatorState) : CorrStep s (onConnect s)

/-- The correlator states reachable from the initial state. -/
inductive CorrReachable : CorrelatorState → Prop where
  | init : CorrReachable CorrelatorState.init
  | step (s s1 : CorrelatorState) :
      CorrReachable s → CorrStep s s1 → CorrReachable s1

/-- The correlator invariant: outstanding identifiers are pairwise distinct
and all strictly below the generator, so the next issued identifier is
fresh. -/
def CorrInv (s : CorrelatorState) : Prop :=
  (s.pending.map PendingRequest.id).Nodup ∧
  ∀ p ∈ s.pending, p.id < s.nextId

theorem corrInv_init : CorrInv CorrelatorState.init := by
  constructor
  · simp [CorrelatorState.init]
  · intro p hp
    simp [CorrelatorState.init] at hp

theorem corrInv_filter (s : CorrelatorState) (q : PendingRequest → Bool)
    (hs : CorrInv s) : CorrInv { s with pending := s.pending.filter q } := by
  obtain ⟨hnd, hlt⟩ := hs
  refine ⟨?_, ?_⟩
  · exact List.Nodup.sublist (List.Sublist.map _ (List.filter_sublist _)) hnd
  · intro p hp
    exact hlt p (List.mem_of_mem_filter hp)

theorem corrInv_step (s s1 : CorrelatorState) (hs : CorrInv s)
    (h : CorrStep s s1) : CorrInv s1 := by
  obtain ⟨hnd, hlt⟩ := hs
  cases h with
  | send s1 now timeoutMs i hsend =>
    unfold sendRequest at hsend
    split at hsend
    · injection hsend with hpair
      cases hpair
      refine ⟨?_, ?_⟩
      · simp only [List.map_cons, List.nodup_cons]
        refine ⟨?_, hnd⟩
        intro hmem
        obtain ⟨p, hp, hpe⟩ := List.mem_map.mp hmem
        exact Nat.lt_irrefl _ (hpe ▸ hlt p hp)
      · intro p hp
        simp only [List.mem_cons] at hp
        rcases hp with rfl | hp
        · exact Nat.lt_succ_self _
        · exact Nat.lt_trans (hlt p hp) (Nat.lt_succ_self _)
    · exact Option.noConfusion hsend
  | resolve i payload =>
    simp only [resolveResponse]
    split
    · exact corrInv_filter s _ ⟨hnd, hlt⟩
    · exact ⟨hnd, hlt⟩
  | expire now =>
    exact corrInv_filter s _ ⟨hnd, hlt⟩
  | disconnect =>
    refine ⟨by simp [onDisconnect], ?_⟩
    intro p hp
    simp [onDisconnect] at hp
  | connect =>
    exact ⟨hnd, hlt⟩

/-- C7: in every reachable state of the Request Correlator the outstanding
correlation identifiers are pairwise distinct (at most one PendingRequest
per identifier) and all strictly below the monotone generator, so an
identifier is never reused while a PendingRequest bearing it is
outstanding. -/
theorem c7_correlation_id_unique (s : CorrelatorState) (h : CorrReachable s) :
    CorrInv s := by
  induction h with
  | init => exact corrInv_init
  | step s s1 _ hstep ih => exact corrInv_step s s1 ih hstep

theorem c7_correlation_id_unique_witness :
    CorrInv { nextId := 1, pending := [⟨0, 15000⟩], conn := .connected } :=
  c7_correlation_id_unique
    { nextId := 1, pending := [⟨0, 15000⟩], conn := .connected }
    (CorrReachable.step _ _
      (CorrReachable.step _ _ CorrReachable.init
        (CorrStep.connect CorrelatorState.init))
      (CorrStep.send _ _ 0 15000 0 rfl))

/-- C8: when the Connection is lost with N PendingRequests outstanding, the
single atomic `onDisconnect` step empties the pending table, marks the
Connection disconnected, and emits exactly one ConnectionLostError
rejection per outstanding request (all N in that one step, so no partial
ordering is observable); on the resulting state no new request is
accepted. -/
theorem c8_disconnect_atomic_sweep (s : CorrelatorState) :
    (onDisconnect s).1.pending = [] ∧
    (onDisconnect s).1.conn = ConnectionState.disconnected ∧
    (onDisconnect s).2.length = s.pending.length ∧
    (onDisconnect s).2 =
      s.pending.map (fun p => (p.id, RequestOutcome.connectionLostError)) ∧
    ∀ now timeoutMs, sendRequest (onDisconnect s).1 now timeoutMs = none := by
  refine ⟨rfl, rfl, by simp [onDisconnect], rfl, ?_⟩
  intro now timeoutMs
  simp [sendRequest, onDisconnect]

/-- C1: the IPC message-type enumeration has exactly seven members and their
string values are exactly start, started, stop, stopped, ping, pong,
error, pairwise distinct — no other member exists. -/
theorem c1_message_type_enumeration :
    (∀ t : NATIVE_MESSAGE_TYPE, t ∈ NATIVE_MESSAGE_TYPE.all) ∧
    NATIVE_MESSAGE_TYPE.all.map NATIVE_MESSAGE_TYPE.val =
      ["start", "started", "stop", "stopped", "ping", "pong", "error"] ∧
    (NATIVE_MESSAGE_TYPE.all.map NATIVE_MESSAGE_TYPE.val).Nodup ∧
    NATIVE_MESSAGE_TYPE.all.length = 7 := by
  refine ⟨fun t => ?_, by decide, by decide, rfl⟩
  cases t <;> simp [NATIVE_MESSAGE_TYPE.all]

/-- C2: the TIMEOUTS object documents default 15000 ms, extension-request
20000 ms and data-processing 20000 ms; the distinct values form exactly
two timeout classes, and each non-default class is strictly greater than
the default. -/
theorem c2_timeout_classes :
    TIMEOUTS.DEFAULT_REQUEST_TIMEOUT = 15000 ∧
    TIMEOUTS.EXTENSION_REQUEST_TIMEOUT = 20000 ∧
    TIMEOUTS.PROCESS_DATA_TIMEOUT = 20000 ∧
    TIMEOUTS.values.dedup = [15000, 20000] ∧
    TIMEOUTS.DEFAULT_REQUEST_TIMEOUT < TIMEOUTS.EXTENSION_REQUEST_TIMEOUT ∧
    TIMEOUTS.DEFAULT_REQUEST_TIMEOUT < TIMEOUTS.PROCESS_DATA_TIMEOUT :=
  ⟨rfl, rfl, rfl, by decide, by decide, by decide⟩

/-- C3: the HTTP status mapping is exactly 200 OK, 204 no-content, 400 bad
request, 500 internal server error, 504 gateway timeout, and the
HTTP_STATUS object defines no other code. -/
theorem c3_http_status_mapping :
    HTTP_STATUS.OK = 200 ∧
    HTTP_STATUS.NO_CONTENT = 204 ∧
    HTTP_STATUS.BAD_REQUEST = 400 ∧
    HTTP_STATUS.INTERNAL_SERVER_ERROR = 500 ∧
    HTTP_STATUS.GATEWAY_TIMEOUT = 504 ∧
    HTTP_STATUS.values = [200, 204, 400, 500, 504] ∧
    HTTP_STATUS.values.Nodup :=
  ⟨rfl, rfl, rfl, rfl, rfl, rfl, by decide⟩

/-- C4: the error message catalog consists of exactly the nine fixed
messages of ERROR_MESSAGES, in source order, and they are pairwise
distinct, so each failure branch surfaces a distinct verbatim message. -/
theorem c4_error_message_catalog :
    ERROR_MESSAGES.values =
      ["Native host connection not established.",
       "Server is not actively running.",
       "Request to extension timed out.",
       "Invalid MCP request or session.",
       "Invalid or missing MCP session ID.",
       "Internal Server Error",
       "Internal server error during MCP session deletion.",
       "Internal server error during MCP request processing.",
       "Invalid or missing MCP session ID for SSE."] ∧
    ERROR_MESSAGES.values.length = 9 ∧
    ERROR_MESSAGES.values.Nodup :=
  ⟨rfl, rfl, by decide⟩

/-- C5 (counterexample): the claim that every port the program names for
the server is the server-port constant is false — the connect URL printed
by configure-host.sh names port 12306 while NATIVE_SERVER_PORT is
56889. -/
theorem c5_port_counterexample :
    configure_host_connectUrl "127.0.0.1" = "http://127.0.0.1:12306/mcp" ∧
    NATIVE_SERVER_PORT = 56889 ∧
    configure_host_connectUrl "127.0.0.1" ≠
      "http://127.0.0.1:" ++ toString NATIVE_SERVER_PORT ++ "/mcp" :=
  ⟨rfl, rfl, by decide⟩

/-- C5 (amended): the endpoint host is the MCP_CHROME_HOST environment
value when set and nonempty, otherwise 0.0.0.0; the server-port constant
is 56889, but the connection URLs printed by the host-configuration
tooling name port 12306 instead of the server-port constant. -/
theorem c5_host_and_port (e : String) (h : e ≠ "") :
    SERVER_CONFIG.HOST (some e) = e ∧
    SERVER_CONFIG.HOST none = "0.0.0.0" ∧
    NATIVE_SERVER_PORT = 56889 ∧
    configure_host_connectUrl "127.0.0.1" = "http://127.0.0.1:12306/mcp" := by
  refine ⟨?_, rfl, rfl, rfl⟩
  simp [SERVER_CONFIG.HOST, h]

theorem c5_host_and_port_witness :
    ("192.168.1.20" : String) ≠ "" ∧
    (SERVER_CONFIG.HOST (some "192.168.1.20") = "192.168.1.20" ∧
     SERVER_CONFIG.HOST none = "0.0.0.0" ∧
     NATIVE_SERVER_PORT = 56889 ∧
     configure_host_connectUrl "127.0.0.1" = "http://127.0.0.1:12306/mcp") :=
  ⟨by decide, c5_host_and_port "192.168.1.20" (by decide)⟩

/-- C9: in the run_host wrapper, a nonempty MCP_CHROME_HOST environment
value wins over both config files; with the variable unset the
script-directory file is consulted first (the home file is then ignored),
and with nothing set the default 0.0.0.0 is exported — while the script's
own comment lists the environment variable third in priority. -/
theorem c9_env_precedence (e : String) (scriptCfg homeCfg : Option String)
    (c1 c2 : String) (h : e ≠ "") :
    run_host_resolveHost (some e) scriptCfg homeCfg = e ∧
    run_host_resolveHost none (some c1) (some c2) =
      run_host_resolveHost none (some c1) none ∧
    run_host_resolveHost none none none = "0.0.0.0" ∧
    run_host_commentPriority.get? 2 = some "Environment variable" := by
  refine ⟨?_, rfl, rfl, rfl⟩
  simp [run_host_resolveHost, h]

theorem c9_env_precedence_witness :
    ("10.0.0.7" : String) ≠ "" ∧
    (run_host_resolveHost (some "10.0.0.7") (some "1.2.3.4") (some "5.6.7.8") =
       "10.0.0.7" ∧
     run_host_resolveHost none (some "1.2.3.4") (some "5.6.7.8") =
       run_host_resolveHost none (some "1.2.3.4") none ∧
     run_host_resolveHost none none none = "0.0.0.0" ∧
     run_host_commentPriority.get? 2 = some "Environment variable") :=
  ⟨by decide,
   c9_env_precedence "10.0.0.7" (some "1.2.3.4") (some "5.6.7.8")
     "1.2.3.4" "5.6.7.8" (by decide)⟩

/-- C10 (counterexample): the exported value is not always the sanitized
file content — for a config file holding a single space, sanitization
yields the empty string but the wrapper exports the default 0.0.0.0. -/
theorem c10_sanitize_counterexample :
    sanitizeHostFile " " = "" ∧
    run_host_resolveHost none (some " ") none = "0.0.0.0" ∧
    run_host_resolveHost none (some " ") none ≠ sanitizeHostFile " " :=
  ⟨rfl, rfl, by decide⟩

/-- C10 (amended): for every config file whose content, after removing
newline, carriage-return and space characters and truncating to 50
bytes, is nonempty, that sanitized value is exactly what the wrapper
exports (from either config file); the sanitized value never exceeds 50
characters, and a 60-character host is silently truncated to its first
50; when the sanitized value is empty the default 0.0.0.0 is exported
instead. -/
theorem c10_sanitize_truncation (c : String) (h : sanitizeHostFile c ≠ "") :
    run_host_resolveHost none (some c) none = sanitizeHostFile c ∧
    run_host_resolveHost none none (some c) = sanitizeHostFile c ∧
    (sanitizeHostFile c).length ≤ 50 ∧
    sanitizeHostFile (List.asString (List.replicate 60 'a')) =
      List.asString (List.replicate 50 'a') := by
  refine ⟨?_, ?_, ?_, by decide⟩
  · simp [run_host_resolveHost, h]
  · simp [run_host_resolveHost, h]
  · show ((c.toList.filter _).take 50).length ≤ 50
    exact List.length_take_le _ _

theorem c10_sanitize_truncation_witness :
    sanitizeHostFile "my-host.example\n" ≠ "" ∧
    (run_host_resolveHost none (some "my-host.example\n") none =
       sanitizeHostFile "my-host.example\n" ∧
     run_host_resolveHost none none (some "my-host.example\n") =
       sanitizeHostFile "my-host.example\n" ∧
     (sanitizeHostFile "my-host.example\n").length ≤ 50 ∧
     sanitizeHostFile (List.asString (List.replicate 60 'a')) =
       List.asString (List.replicate 50 'a')) :=
  ⟨by decide, c10_sanitize_truncation "my-host.example\n" (by decide)⟩

/-- C6: a request accepted with the default 15000 ms timeout class to which
no response ever arrives is failed with TimeoutError exactly when 15000 ms
have elapsed (not one millisecond earlier), the Gateway surfaces that
outcome as HTTP 504 with the fixed request-timeout message, and the
Connection is still connected afterwards. The freshness hypothesis is the
C7 invariant, which holds in every reachable state. -/
theorem c6_default_timeout_504 (s s1 : CorrelatorState) (now i : Nat)
    (hc : s.conn = ConnectionState.connected)
    (hfresh : ∀ p ∈ s.pending, p.id < s.nextId)
    (hsend : sendRequest s now TIMEOUTS.DEFAULT_REQUEST_TIMEOUT = some (s1, i)) :
    ((i, RequestOutcome.timeoutError) ∈ (expireTimeouts s1 (now + 15000)).2) ∧
    ((i, RequestOutcome.timeoutError) ∉ (expireTimeouts s1 (now + 14999)).2) ∧
    gatewayResponse RequestOutcome.timeoutError =
      (HTTP_STATUS.GATEWAY_TIMEOUT, ERROR_MESSAGES.REQUEST_TIMEOUT) ∧
    (expireTimeouts s1 (now + 15000)).1.conn = ConnectionState.connected := by
  unfold sendRequest at hsend
  rw [if_pos hc] at hsend
  injection hsend with hpair
  cases hpair
  refine ⟨?_, ?_, rfl, hc⟩
  · simp [expireTimeouts, TIMEOUTS.DEFAULT_REQUEST_TIMEOUT, List.filter_cons]
  · intro hmem
    simp only [expireTimeouts, TIMEOUTS.DEFAULT_REQUEST_TIMEOUT,
      List.filter_cons] at hmem
    rw [if_neg (by simp)] at hmem
    obtain ⟨p, hp, hpe⟩ := List.mem_map.mp hmem
    have hid : p.id = s.nextId := congrArg Prod.fst hpe
    have hlt : p.id < s.nextId := hfresh p (List.mem_of_mem_filter hp)
    exact Nat.lt_irrefl _ (hid ▸ hlt)

theorem c6_default_timeout_504_witness :
    (({ nextId := 0, pending := [], conn := .connected } :
        CorrelatorState).conn = ConnectionState.connected) ∧
    (((0, RequestOutcome.timeoutError) ∈
       (expireTimeouts { nextId := 1, pending := [⟨0, 15000⟩],
                         conn := .connected } (0 + 15000)).2) ∧
     ((0, RequestOutcome.timeoutError) ∉
       (expireTimeouts { nextId := 1, pending := [⟨0, 15000⟩],
                         conn := .connected } (0 + 14999)).2) ∧
     gatewayResponse RequestOutcome.timeoutError =
       (HTTP_STATUS.GATEWAY_TIMEOUT, ERROR_MESSAGES.REQUEST_TIMEOUT) ∧
     (expireTimeouts { nextId := 1, pending := [⟨0, 15000⟩],
                       conn := .connected } (0 + 15000)).1.conn =
       ConnectionState.connected) :=
  ⟨rfl,
   c6_default_timeout_504
     { nextId := 0, pending := [], conn := .connected }
     { nextId := 1, pending := [⟨0, 15000⟩], conn := .connected }
     0 0 rfl (by simp) rfl⟩
